import Mathlib

/-!
Verification development for a minimal MCP server wrapping the Backlog
"recently viewed projects" HTTP API (src/index.ts).

The TypeScript source is shallowly embedded: JavaScript runtime values that
reach the tool-argument validation are modelled by `Backlog.JsVal`, JSON
documents by `Backlog.Json`, the process environment by `Backlog.Env`, and
the HTTP layer by an explicit fetch oracle `Backlog.Fetch` together with a
trace of the requests the client issues.  JavaScript numbers are modelled as
rationals (`ℚ`); `NaN` is the separate constructor `JsVal.nan` and the
`Number(...)` coercion returns `Option ℚ` with `none` standing for `NaN`.
-/

namespace Backlog

/-- A JavaScript runtime value, as far as the tool-argument validation in
`executeTools` can observe it.  Finite numbers are rationals; `nan` models
`NaN`; `undefined` models both a missing property and the value
`undefined`. -/
inductive JsVal where
  | num (q : ℚ)
  | nan
  | str (s : String)
  | boolean (b : Bool)
  | null
  | undefined
  | object
deriving DecidableEq

/-- JavaScript truthiness of a value (`if (v)` / `v ? _ : _`).  Plain
objects are always truthy. -/
def JsVal.truthy : JsVal → Bool
  | .num q => q != 0
  | .nan => false
  | .str s => !s.isEmpty
  | .boolean b => b
  | .null => false
  | .undefined => false
  | .object => true

/-- Characters treated as trimmable whitespace by `Number(...)`. -/
def jsWsChar (c : Char) : Bool :=
  c == ' ' || c == '\t' || c == '\n' || c == '\r'

/-- Trim whitespace from both ends of a character list. -/
def jsTrim (cs : List Char) : List Char :=
  ((cs.dropWhile jsWsChar).reverse.dropWhile jsWsChar).reverse

/-- The numeric value of a digit string read left to right. -/
def digitsVal (ds : List Char) : ℕ :=
  ds.foldl (fun a c => 10 * a + (c.toNat - 48)) 0

/-- Split a character list into its leading decimal digits and the rest. -/
def spanDigits (cs : List Char) : List Char × List Char :=
  (cs.takeWhile Char.isDigit, cs.dropWhile Char.isDigit)

/-- The rational `±(ip + fp / 10^len)`, i.e. the value of a decimal
literal with integer part `ip` and `len` fraction digits reading `fp`. -/
def qOfDecimal (neg : Bool) (ip fp len : ℕ) : ℚ :=
  let n : ℤ := (ip * 10 ^ len + fp : ℕ)
  mkRat (if neg then -n else n) (10 ^ len)

/-- JavaScript `Number(string)` coercion: trimmed empty input is `0`, an
optional sign followed by decimal digits and an optional fraction is read as
a rational, anything else is `NaN` (`none`).  The hexadecimal, exponent and
`Infinity` forms of the JavaScript numeric grammar are not modelled; no
input in this development uses them. -/
def parseJsNumber (s : String) : Option ℚ :=
  let cs := jsTrim s.toList
  if cs.isEmpty then some 0
  else
    let (neg, cs1) : Bool × List Char :=
      match cs with
      | '-' :: r => (true, r)
      | '+' :: r => (false, r)
      | r => (false, r)
    let (ip, cs2) := spanDigits cs1
    match cs2 with
    | [] => if ip.isEmpty then none else some (qOfDecimal neg (digitsVal ip) 0 0)
    | '.' :: r =>
      let (fp, cs3) := spanDigits r
      if cs3.isEmpty && !(ip.isEmpty && fp.isEmpty) then
        some (qOfDecimal neg (digitsVal ip) (digitsVal fp) fp.length)
      else none
    | _ => none

/-- JavaScript `Number(v)` on a runtime value; `none` is `NaN` (a plain
object coerces through `"[object Object]"` to `NaN`). -/
def JsVal.toNumber : JsVal → Option ℚ
  | .num q => some q
  | .nan => none
  | .str s => parseJsNumber s
  | .boolean b => some (if b then 1 else 0)
  | .null => some 0
  | .undefined => none
  | .object => none

/-- The sort order accepted by the Backlog client (`'asc' | 'desc'`). -/
inductive SortOrder where
  | asc
  | desc
deriving DecidableEq

/-- The string carried by a `SortOrder` value. -/
def SortOrder.str : SortOrder → String
  | .asc => "asc"
  | .desc => "desc"

/-- The arguments of a `list_recent_projects` call as the handler reads
them: `args?.count` and `args?.order`, with `none` when `args` is absent or
the property is undefined. -/
structure ToolArgs where
  count : Option JsVal
  order : Option JsVal

/-- Lines 93-95 of src/index.ts:
`args?.count && Number(args.count) > 0 && Number(args.count) <= 100
  ? Number(args.count) : 20`. -/
def resolveCount (count : Option JsVal) : ℚ :=
  match count with
  | none => 20
  | some v =>
    if v.truthy then
      match v.toNumber with
      | some q => if 0 < q ∧ q ≤ 100 then q else 20
      | none => 20
    else 20

/-- Line 97 of src/index.ts: `args?.order === 'asc' ? 'asc' : 'desc'`. -/
def resolveOrder (order : Option JsVal) : SortOrder :=
  if order = some (.str "asc") then .asc else .desc

mutual

/-- A JSON document, the shape of every upstream request/response body.
Arrays and objects use the mutually defined list types `JArr`/`JObj` so
that all functions over JSON are structurally recursive. -/
inductive Json where
  | null
  | bool (b : Bool)
  | num (q : ℚ)
  | str (s : String)
  | arr (xs : JArr)
  | obj (fields : JObj)

/-- The elements of a JSON array. -/
inductive JArr where
  | nil
  | cons (hd : Json) (tl : JArr)

/-- The key/value fields of a JSON object. -/
inductive JObj where
  | nil
  | cons (k : String) (v : Json) (tl : JObj)

end

/-- Build a `JArr` from a list of values. -/
def JArr.ofList : List Json → JArr
  | [] => .nil
  | x :: r => .cons x (JArr.ofList r)

/-- Build a `JObj` from a list of fields. -/
def JObj.ofList : List (String × Json) → JObj
  | [] => .nil
  | kv :: r => .cons kv.1 kv.2 (JObj.ofList r)

/-- Whether a JSON array has no elements. -/
def JArr.isEmpty : JArr → Bool
  | .nil => true
  | .cons _ _ => false

/-- Whether a JSON object has no fields. -/
def JObj.isEmpty : JObj → Bool
  | .nil => true
  | .cons _ _ _ => false

/-- First value bound to key `k`, if any. -/
def JObj.lookup : JObj → String → Option Json
  | .nil, _ => none
  | .cons k v t, k2 => if k = k2 then some v else JObj.lookup t k2

/-- The `i`-th element of a JSON array, if present. -/
def JArr.get? : JArr → ℕ → Option Json
  | .nil, _ => none
  | .cons h _, 0 => some h
  | .cons _ t, i + 1 => JArr.get? t i

/-- Property access `j.k` (resp. `j?.k`) as observable on parsed JSON:
defined only on objects, `none` (undefined) everywhere else. -/
def Json.getField : Json → String → Option Json
  | .obj fs, k => fs.lookup k
  | _, _ => none

/-- Index access `j?.[i]` on parsed JSON: defined only on arrays. -/
def Json.getIdx : Json → ℕ → Option Json
  | .arr xs, i => xs.get? i
  | _, _ => none

/-- JavaScript truthiness of a parsed JSON value (objects and arrays are
always truthy; there is no `NaN` or `undefined` in parsed JSON). -/
def jsonTruthy : Json → Bool
  | .null => false
  | .bool b => b
  | .num q => q != 0
  | .str s => !s.isEmpty
  | .arr _ => true
  | .obj _ => true

/-- The decimal rendering of a JavaScript number.  Integral values render as
their decimal digits, exactly as in JavaScript; the rendering of
non-integral doubles is abstracted (every number rendered in this
development is integral). -/
def numRender (q : ℚ) : String :=
  if q.den = 1 then toString q.num else toString q

mutual

/-- String interpolation of a parsed JSON value, as in the template literal
building the API error message.  Nested arrays/objects follow JavaScript
`toString` approximately (array elements joined by commas, objects as
`[object Object]`); all interpolated values in this development are strings
or integral numbers. -/
def jsonTemplate : Json → String
  | .null => "null"
  | .bool b => if b then "true" else "false"
  | .num q => numRender q
  | .str s => s
  | .arr xs => jsonTemplateItems xs
  | .obj _ => "[object Object]"

/-- Array elements joined by commas, as JavaScript `Array.prototype.toString`. -/
def jsonTemplateItems : JArr → String
  | .nil => ""
  | .cons h t =>
    jsonTemplate h ++
      (match t with
       | .nil => ""
       | .cons _ _ => "," ++ jsonTemplateItems t)

end

/-- JSON string-literal escaping as performed by `JSON.stringify` for the
characters occurring in this development (quote, backslash and the common
control characters). -/
def escChar (c : Char) : String :=
  if c = '"' then "\\\""
  else if c = '\\' then "\\\\"
  else if c = '\n' then "\\n"
  else if c = '\t' then "\\t"
  else if c = '\r' then "\\r"
  else String.singleton c

/-- A JSON string literal: the escaped characters between double quotes. -/
def escStr (s : String) : String :=
  "\"" ++ String.join (s.toList.map escChar) ++ "\""

mutual

/-- `JSON.stringify(v, null, 2)`: two-space pretty printing.  `ind` is the
indentation of the line the value starts on. -/
def stringifyVal (ind : String) : Json → String
  | .null => "null"
  | .bool b => if b then "true" else "false"
  | .num q => numRender q
  | .str s => escStr s
  | .arr xs =>
    (match xs with
     | .nil => "[]"
     | .cons _ _ =>
       "[\n" ++ stringifyItems (ind ++ "  ") xs ++ "\n" ++ ind ++ "]")
  | .obj fs =>
    (match fs with
     | .nil => "\x7b\x7d"
     | .cons _ _ _ =>
       "\x7b\n" ++ stringifyFields (ind ++ "  ") fs ++ "\n" ++ ind ++ "\x7d")

/-- Array elements, one per line at indentation `ind`, separated by `,\n`. -/
def stringifyItems (ind : String) : JArr → String
  | .nil => ""
  | .cons h t =>
    ind ++ stringifyVal ind h ++
      (match t with
       | .nil => ""
       | .cons _ _ => ",\n" ++ stringifyItems ind t)

/-- Object fields, one per line at indentation `ind`, separated by `,\n`. -/
def stringifyFields (ind : String) : JObj → String
  | .nil => ""
  | .cons k v t =>
    ind ++ escStr k ++ ": " ++ stringifyVal ind v ++
      (match t with
       | .nil => ""
       | .cons _ _ _ => ",\n" ++ stringifyFields ind t)

end

/-- `JSON.stringify(v, null, 2)` at top level. -/
def jsonStringify (v : Json) : String :=
  stringifyVal "" v

/-- Drop leading JSON whitespace. -/
def skipWs (cs : List Char) : List Char :=
  cs.dropWhile jsWsChar

/-- Parse the body of a JSON string literal after the opening quote,
handling the escapes produced by `escStr`. -/
def parseStrBody : List Char → Option (List Char × List Char)
  | [] => none
  | '"' :: r => some ([], r)
  | '\\' :: e :: r =>
    (if e = '"' then some '"'
     else if e = '\\' then some '\\'
     else if e = 'n' then some '\n'
     else if e = 't' then some '\t'
     else if e = 'r' then some '\r'
     else if e = '/' then some '/'
     else none).bind fun c =>
      (parseStrBody r).map fun p => (c :: p.1, p.2)
  | c :: r => (parseStrBody r).map fun p => (c :: p.1, p.2)

/-- Parse a JSON number literal (optional minus, digits, optional
fraction); exponent forms are not produced by `jsonStringify` and are not
accepted. -/
def parseNumLit (cs : List Char) : Option (ℚ × List Char) :=
  let (neg, cs1) : Bool × List Char :=
    match cs with
    | '-' :: r => (true, r)
    | r => (false, r)
  let (ip, cs2) := spanDigits cs1
  if ip.isEmpty then none
  else
    match cs2 with
    | '.' :: r =>
      let (fp, cs3) := spanDigits r
      if fp.isEmpty then none
      else some (qOfDecimal neg (digitsVal ip) (digitsVal fp) fp.length, cs3)
    | _ => some (qOfDecimal neg (digitsVal ip) 0 0, cs2)

mutual

/-- Parse one JSON value; `fuel` bounds the recursion (the entry point
passes the input length plus one, which always suffices since every
recursive call consumes at least one character). -/
def parseValF : ℕ → List Char → Option (Json × List Char)
  | 0, _ => none
  | f + 1, cs =>
    match skipWs cs with
    | 'n' :: 'u' :: 'l' :: 'l' :: r => some (.null, r)
    | 't' :: 'r' :: 'u' :: 'e' :: r => some (.bool true, r)
    | 'f' :: 'a' :: 'l' :: 's' :: 'e' :: r => some (.bool false, r)
    | '"' :: r => (parseStrBody r).map fun p => (.str (String.mk p.1), p.2)
    | '[' :: r =>
      (match skipWs r with
       | ']' :: r2 => some (.arr .nil, r2)
       | r1 => parseElemsF f r1 [])
    | '\x7b' :: r =>
      (match skipWs r with
       | '\x7d' :: r2 => some (.obj .nil, r2)
       | r1 => parseFieldsF f r1 [])
    | cs1 => (parseNumLit cs1).map fun p => (.num p.1, p.2)

/-- Parse the comma-separated elements of a non-empty JSON array, up to and
including the closing bracket. -/
def parseElemsF : ℕ → List Char → List Json → Option (Json × List Char)
  | 0, _, _ => none
  | f + 1, cs, acc =>
    (parseValF f cs).bind fun p =>
      match skipWs p.2 with
      | ',' :: r2 => parseElemsF f r2 (acc ++ [p.1])
      | ']' :: r2 => some (.arr (JArr.ofList (acc ++ [p.1])), r2)
      | _ => none

/-- Parse the fields of a non-empty JSON object, up to and including the
closing brace. -/
def parseFieldsF : ℕ → List Char → List (String × Json) → Option (Json × List Char)
  | 0, _, _ => none
  | f + 1, cs, acc =>
    match skipWs cs with
    | '"' :: r =>
      (parseStrBody r).bind fun kp =>
        match skipWs kp.2 with
        | ':' :: r2 =>
          (parseValF f r2).bind fun vp =>
            match skipWs vp.2 with
            | ',' :: r3 => parseFieldsF f r3 (acc ++ [(String.mk kp.1, vp.1)])
            | '\x7d' :: r3 => some (.obj (JObj.ofList (acc ++ [(String.mk kp.1, vp.1)])), r3)
            | _ => none
        | _ => none
    | _ => none

end

/-- `JSON.parse`, restricted to the grammar `jsonStringify` emits: the
parsed value provided the whole input is consumed. -/
def jsonParse (s : String) : Option Json :=
  (parseValF (s.length + 1) s.toList).bind fun p =>
    if (skipWs p.2).isEmpty then some p.1 else none

/-- `pat` occurs as a contiguous substring of `s`. -/
def strContains (s pat : String) : Bool :=
  go pat.toList s.toList
where
  /-- Check every suffix of `s` for `pat` as a prefix. -/
  go (pat : List Char) : List Char → Bool
    | [] => pat.isEmpty
    | c :: rest => pat.isPrefixOf (c :: rest) || go pat rest

/-- The constructor argument of `BacklogClient` (src/index.ts lines
277-280). -/
structure AuthConfig where
  apiKey : String
  spaceUrl : String

/-- The value of a query parameter.  `s` is a literal string; `n q` is the
JavaScript decimal rendering `q.toString()` of the number `q` (kept
symbolic so that the number carried upstream is directly observable). -/
inductive QVal where
  | s (v : String)
  | n (q : ℚ)
deriving DecidableEq

/-- An HTTP request exactly as `BacklogClient.request` hands it to `fetch`:
the URL split into its pre-query part and its query parameters, plus
method, headers and body.  `fetch(url, {...options, headers: {...}})` with
`options = {}` issues a GET with no body and only the `Content-Type`
header. -/
structure Request where
  url : String
  query : List (String × QVal)
  method : String
  headers : List (String × String)
  body : Option String
deriving DecidableEq

/-- `BacklogClient.getUrl` (src/index.ts lines 194-206) followed by the
fixed fetch options of `BacklogClient.request` (lines 215-221): the base
URL is `spaceUrl + "/api/v2" + path`, the `apiKey` query parameter is
appended first, then the caller's query parameters in order. -/
def mkRequest (cfg : AuthConfig) (path : String) (queryParams : List (String × QVal)) :
    Request where
  url := cfg.spaceUrl ++ "/api/v2" ++ path
  query := ("apiKey", .s cfg.apiKey) :: queryParams
  method := "GET"
  headers := [("Content-Type", "application/json")]
  body := none

/-- The outcome of one `fetch` as the client observes it after
`response.json()`: either a response with its success flag and parsed JSON
body, or a failure (network error or a body that is not valid JSON). -/
inductive FetchOutcome where
  | resp (ok : Bool) (body : Json)
  | fail (msg : String)

/-- The HTTP layer, as an oracle from requests to outcomes. -/
def Fetch : Type := Request → FetchOutcome

/-- The errors the server can raise, one constructor per `throw` site of
src/index.ts.  `api` carries the full thrown message together with the
`errors?.[0]?.code` value it interpolates. -/
inductive Err where
  | config (msg : String)
  | notFound (msg : String)
  | unknownTool (msg : String)
  | api (message : String) (code : Option Json)
  | transport (msg : String)

/-- `error.errors?.[0]` on the parsed body of a non-success response. -/
def firstApiError (body : Json) : Option Json :=
  (body.getField "errors").bind fun e => e.getIdx 0

/-- The `errors?.[0]?.code` value of a non-success response body. -/
def apiCodeField (body : Json) : Option Json :=
  (firstApiError body).bind fun e => e.getField "code"

/-- The message thrown on a non-success response (line 227):
`Backlog API Error: ${errors?.[0]?.message || 'Unknown error'}
(Code: ${errors?.[0]?.code})`. -/
def apiMessage (body : Json) : String :=
  let msgPart :=
    match (firstApiError body).bind fun e => e.getField "message" with
    | some j => if jsonTruthy j then jsonTemplate j else "Unknown error"
    | none => "Unknown error"
  let codePart :=
    match apiCodeField body with
    | some j => jsonTemplate j
    | none => "undefined"
  "Backlog API Error: " ++ msgPart ++ " (Code: " ++ codePart ++ ")"

/-- What a non-success response produces (lines 225-228).  A `null` body
makes the property access `error.errors` itself throw a `TypeError`, which
the catch block re-raises unchanged; every other body yields the
interpolated `Backlog API Error` message. -/
def nonOkResult (body : Json) : Err :=
  match body with
  | .null => .transport "TypeError: Cannot read properties of null (reading 'errors')"
  | _ => .api (apiMessage body) (apiCodeField body)

/-- Map one fetch outcome to the result of `BacklogClient.request`
(lines 211-235): a failed transport or JSON parse re-raises after logging;
a non-success status throws the Backlog API error; a success returns the
parsed body. -/
def handleResponse : FetchOutcome → Except Err Json
  | .fail msg => .error (.transport msg)
  | .resp ok body => if ok then .ok body else .error (nonOkResult body)

/-- `BacklogClient.request`: build the request, issue it, interpret the
outcome.  The second component is the trace of requests handed to the HTTP
layer. -/
def request (cfg : AuthConfig) (fetch : Fetch) (path : String)
    (queryParams : List (String × QVal)) : Except Err Json × List Request :=
  let req := mkRequest cfg path queryParams
  (handleResponse (fetch req), [req])

/-- The parameters of `getRecentlyViewedProjects` (line 240). -/
structure RecentParams where
  order : Option SortOrder
  offset : Option ℚ
  count : Option ℚ

/-- Lines 241-245: only the defined parameters become query parameters, in
the order `order`, `offset`, `count`; numbers are attached via
`toString()`. -/
def recentQueryParams (params : RecentParams) : List (String × QVal) :=
  (match params.order with
   | some o => [("order", QVal.s o.str)]
   | none => []) ++
  (match params.offset with
   | some q => [("offset", QVal.n q)]
   | none => []) ++
  (match params.count with
   | some q => [("count", QVal.n q)]
   | none => [])

/-- `BacklogClient.getRecentlyViewedProjects` (lines 240-248). -/
def getRecentlyViewedProjects (cfg : AuthConfig) (fetch : Fetch)
    (params : RecentParams) : Except Err Json × List Request :=
  request cfg fetch "/users/myself/recentlyViewedProjects" (recentQueryParams params)

/-- `BacklogClient.getProject` (lines 253-255). -/
def getProject (cfg : AuthConfig) (fetch : Fetch) (projectId : String) :
    Except Err Json × List Request :=
  request cfg fetch ("/projects/" ++ projectId) []

/-- `BacklogClient.getMyself` (lines 260-262). -/
def getMyself (cfg : AuthConfig) (fetch : Fetch) : Except Err Json × List Request :=
  request cfg fetch "/users/myself" []

/-- `BacklogClient.getSpace` (lines 267-269). -/
def getSpace (cfg : AuthConfig) (fetch : Fetch) : Except Err Json × List Request :=
  request cfg fetch "/space" []

/-- The process environment as the handlers read it. -/
structure Env where
  backlogApiKey : Option String
  backlogSpaceUrl : Option String
  sampleEnv : Option String

/-- JavaScript falsiness of an environment variable (`!v`): unset or the
empty string. -/
def envFalsy : Option String → Bool
  | none => true
  | some s => s.isEmpty

/-- One item of a tool-response envelope. -/
structure ContentItem where
  type : String
  text : String
deriving DecidableEq

/-- The envelope a tool call returns. -/
structure ToolResponse where
  content : List ContentItem
deriving DecidableEq

/-- `formatToolResponse` (lines 78-87): a single text item
`# ${title}\n\n${JSON.stringify(data, null, 2)}`. -/
def formatToolResponse (title : String) (data : Json) : ToolResponse where
  content := [⟨"text", "# " ++ title ++ "\n\n" ++ jsonStringify data⟩]

/-- The configuration error message of line 103. -/
def credsErrMsg : String :=
  "BACKLOG_API_KEY と BACKLOG_SPACE_URL の環境変数が必要です"

/-- Lines 99-116 of the `list_recent_projects` case, after `count` and
`order` have been resolved: check the credentials, construct the client,
fetch the projects and wrap them in the titled envelope.  The request
trace is passed through. -/
def runRecent (env : Env) (fetch : Fetch) (count : ℚ) (order : SortOrder) :
    Except Err ToolResponse × List Request :=
  if envFalsy env.backlogApiKey || envFalsy env.backlogSpaceUrl then
    (.error (.config credsErrMsg), [])
  else
    let cfg : AuthConfig := ⟨env.backlogApiKey.getD "", env.backlogSpaceUrl.getD ""⟩
    let r := getRecentlyViewedProjects cfg fetch ⟨some order, none, some count⟩
    (r.1.map (formatToolResponse "Recently Viewed Projects"), r.2)

/-- The `list_recent_projects` case of `executeTools` (lines 92-117). -/
def listRecentProjects (env : Env) (fetch : Fetch) (args : ToolArgs) :
    Except Err ToolResponse × List Request :=
  runRecent env fetch (resolveCount args.count) (resolveOrder args.order)

/-- `executeTools` (lines 90-122): dispatch on the tool name; any name
other than `list_recent_projects` throws `unknown tool` without touching
the HTTP layer. -/
def executeTools (env : Env) (fetch : Fetch) (toolName : String) (args : ToolArgs) :
    Except Err ToolResponse × List Request :=
  if toolName = "list_recent_projects" then listRecentProjects env fetch args
  else (.error (.unknownTool "unknown tool"), [])

/-- One entry of a resource read result. -/
structure ResourceContent where
  uri : String
  mimeType : String
  text : String
deriving DecidableEq

/-- The result of a resource read. -/
structure ResourceResponse where
  contents : List ResourceContent
deriving DecidableEq

/-- `readResource` (lines 56-76): the one static resource interpolates
`SAMPLE_ENV` (a missing or empty value throws); every other URI throws the
not-found error naming the URI. -/
def readResource (env : Env) (uri : String) : Except Err ResourceResponse :=
  if uri = "simple://greeting" then
    if envFalsy env.sampleEnv then
      .error (.config "環境変数 SAMPLE_ENV が設定されていません")
    else
      .ok ⟨[⟨uri, "text/plain",
        "こんにちは！シンプルなMCPサーバーへようこそ。\n環境変数 SAMPLE_ENV: "
          ++ env.sampleEnv.getD ""⟩]⟩
  else
    .error (.notFound ("不明なリソース: " ++ uri))

end Backlog

deriving instance DecidableEq for Backlog.Json

deriving instance DecidableEq for Backlog.Err

namespace Backlog

/-! ### Concrete fixtures used by the theorems -/

/-- An environment with both Backlog credentials set and `SAMPLE_ENV`
unset. -/
def envC : Env := ⟨some "key", some "https://example.backlog.com", none⟩

/-- The client configuration `executeTools` builds from `envC`. -/
def cfgC : AuthConfig := ⟨"key", "https://example.backlog.com"⟩

/-- A stubbed upstream project record (the fields other than `id` are
opaque pass-through data). -/
def sampleProject : Json :=
  .obj (.cons "id" (.num 1)
    (.cons "projectKey" (.str "TEST")
      (.cons "name" (.str "Test Project") .nil)))

/-- The stubbed HTTP 200 body `[{project: {..., id: 1}, updated: "2024-01-01"}]`. -/
def sampleBody : Json :=
  .arr (.cons
    (.obj (.cons "project" sampleProject
      (.cons "updated" (.str "2024-01-01") .nil)))
    .nil)

/-- The stubbed HTTP 403 body
`{"errors": [{"message": "Authentication failure", "code": 11, "moreInfo": ""}]}`. -/
def errBody403 : Json :=
  .obj (.cons "errors"
    (.arr (.cons
      (.obj (.cons "message" (.str "Authentication failure")
        (.cons "code" (.num 11)
          (.cons "moreInfo" (.str "") .nil))))
      .nil))
    .nil)

/-- Arguments with neither `count` nor `order`. -/
def noArgs : ToolArgs := ⟨none, none⟩

/-! ### Helper lemmas about the `count` validation -/

/-- A truthy argument whose numeric coercion lies in `(0, 100]` resolves to
that coercion. -/
lemma resolveCount_pass (v : JsVal) (q : ℚ) (ht : v.truthy = true)
    (hn : v.toNumber = some q) (h0 : 0 < q) (h1 : q ≤ 100) :
    resolveCount (some v) = q := by
  simp [resolveCount, ht, hn, h0, h1]

/-- An argument whose numeric coercion is nonpositive resolves to 20. -/
lemma resolveCount_nonpos (v : JsVal) (q : ℚ) (hn : v.toNumber = some q)
    (h : q ≤ 0) : resolveCount (some v) = 20 := by
  by_cases ht : v.truthy <;> simp [resolveCount, ht, hn, not_lt.mpr h]

/-- An argument whose numeric coercion exceeds 100 resolves to 20. -/
lemma resolveCount_over (v : JsVal) (q : ℚ) (hn : v.toNumber = some q)
    (h : 100 < q) : resolveCount (some v) = 20 := by
  by_cases ht : v.truthy <;> simp [resolveCount, ht, hn, not_le.mpr h]

/-- An argument whose numeric coercion is `NaN` resolves to 20. -/
lemma resolveCount_nan (v : JsVal) (hn : v.toNumber = none) :
    resolveCount (some v) = 20 := by
  by_cases ht : v.truthy <;> simp [resolveCount, ht, hn]

/-! ### Claims -/

/-- C1: for the `count` argument of `list_recent_projects`, a numeric value
in `[1, 100]` passes through unchanged to the upstream request, and every
value that is `≤ 0`, `> 100`, non-numeric, or absent resolves to the
default 20; in particular `count: 500` behaves identically to `count`
absent. -/
theorem count_argument_validation :
    (∀ q : ℚ, 1 ≤ q → q ≤ 100 → resolveCount (some (JsVal.num q)) = q)
  ∧ (∀ (v : JsVal) (q : ℚ), v.toNumber = some q → q ≤ 0 →
      resolveCount (some v) = 20)
  ∧ (∀ (v : JsVal) (q : ℚ), v.toNumber = some q → 100 < q →
      resolveCount (some v) = 20)
  ∧ (∀ v : JsVal, v.toNumber = none → resolveCount (some v) = 20)
  ∧ resolveCount none = 20
  ∧ (∀ (env : Env) (fetch : Fetch) (o : Option JsVal),
      executeTools env fetch "list_recent_projects" ⟨some (.num 500), o⟩
        = executeTools env fetch "list_recent_projects" ⟨none, o⟩)
  ∧ (∀ (fetch : Fetch) (q : ℚ), 1 ≤ q → q ≤ 100 →
      (executeTools envC fetch "list_recent_projects" ⟨some (.num q), none⟩).2
        = [mkRequest cfgC "/users/myself/recentlyViewedProjects"
            [("order", QVal.s "desc"), ("count", QVal.n q)]]) := by
  refine ⟨?_, resolveCount_nonpos, resolveCount_over, resolveCount_nan, rfl, ?_, ?_⟩
  · intro q h1 h2
    exact resolveCount_pass _ q
      (by simp [JsVal.truthy, bne_iff_ne]
          exact ne_of_gt (lt_of_lt_of_le zero_lt_one h1))
      rfl (lt_of_lt_of_le zero_lt_one h1) h2
  · intro env fetch o
    have h500 : resolveCount (some (.num 500)) = 20 := by decide
    have hnone : resolveCount none = 20 := rfl
    simp [executeTools, listRecentProjects, h500, hnone]
  · intro fetch q h1 h2
    have hc : resolveCount (some (.num q)) = q :=
      resolveCount_pass _ q
        (by simp [JsVal.truthy, bne_iff_ne]
            exact ne_of_gt (lt_of_lt_of_le zero_lt_one h1))
        rfl (lt_of_lt_of_le zero_lt_one h1) h2
    simp only [executeTools, listRecentProjects, hc, runRecent, envC, envFalsy,
      getRecentlyViewedProjects, request, recentQueryParams, resolveOrder,
      mkRequest, cfgC, SortOrder.str]
    rfl

/-- Witness for C1, instantiated at the in-range input 50. -/
theorem count_argument_validation_witness :
    resolveCount (some (Backlog.JsVal.num 50)) = 50 :=
  count_argument_validation.1 50 (by norm_num) (by norm_num)

/-- C5: for the `order` argument, exactly the literal string `"asc"`
resolves to `"asc"`, and every other value (including absent) resolves to
`"desc"`. -/
theorem order_argument_validation :
    resolveOrder (some (JsVal.str "asc")) = .asc
  ∧ (∀ v : JsVal, v ≠ .str "asc" → resolveOrder (some v) = .desc)
  ∧ resolveOrder none = .desc
  ∧ SortOrder.str .asc = "asc" ∧ SortOrder.str .desc = "desc" := by
  refine ⟨rfl, ?_, rfl, rfl, rfl⟩
  intro v h
  simp [resolveOrder, h]

/-- Witness for C5, instantiated at the non-`"asc"` input `"desc"`. -/
theorem order_argument_validation_witness :
    resolveOrder (some (Backlog.JsVal.str "desc")) = .desc :=
  order_argument_validation.2.1 (.str "desc") (by decide)

/-- C10: the `count` validation coerces its argument with `Number(...)`, so
any truthy value whose numeric coercion lies in `(0, 100]` is used as-is
after coercion: the numeric string `"50"` resolves to the number 50 rather
than being treated as absent, and the non-integer `5/2` passes through
unchanged to the upstream request. -/
theorem count_numeric_coercion :
    resolveCount (some (JsVal.str "50")) = 50
  ∧ (∀ (v : JsVal) (q : ℚ), v.truthy = true → v.toNumber = some q →
      0 < q → q ≤ 100 → resolveCount (some v) = q)
  ∧ resolveCount (some (JsVal.num (mkRat 5 2))) = mkRat 5 2
  ∧ (executeTools envC (fun _ => .resp true (.arr .nil)) "list_recent_projects"
        ⟨some (.num (mkRat 5 2)), none⟩).2
      = [mkRequest cfgC "/users/myself/recentlyViewedProjects"
          [("order", QVal.s "desc"), ("count", QVal.n (mkRat 5 2))]] :=
  ⟨by decide, resolveCount_pass, by decide, by decide⟩

/-- Witness for C10, instantiated at the truthy input `true`, whose numeric
coercion is 1. -/
theorem count_numeric_coercion_witness :
    resolveCount (some (Backlog.JsVal.boolean true)) = 1 :=
  count_numeric_coercion.2.1 (.boolean true) 1 rfl rfl (by norm_num) (by norm_num)

/-- C2: a non-success upstream response makes the call fail with the API
error extracting `message`/`code` from the first element of the body's
`errors` array if present, else a generic message; for the 403 body
`{"errors": [{"message": "Authentication failure", "code": 11, ...}]}` the
error's message contains `"Authentication failure"` and its code equals
11. -/
theorem api_error_extraction :
    (∀ body : Json,
      (executeTools envC (fun _ => .resp false body) "list_recent_projects" noArgs).1
        = .error (nonOkResult body))
  ∧ (executeTools envC (fun _ => .resp false errBody403) "list_recent_projects" noArgs).1
      = .error (.api "Backlog API Error: Authentication failure (Code: 11)"
          (some (.num 11)))
  ∧ strContains "Backlog API Error: Authentication failure (Code: 11)"
      "Authentication failure" = true
  ∧ (∀ body : Json, body ≠ .null → firstApiError body = none →
      nonOkResult body
        = .api "Backlog API Error: Unknown error (Code: undefined)" none) := by
  refine ⟨fun body => rfl, rfl, by decide, ?_⟩
  intro body hnull hfirst
  cases body with
  | null => exact absurd rfl hnull
  | bool b => simp [nonOkResult, apiMessage, apiCodeField, hfirst]; rfl
  | num q => simp [nonOkResult, apiMessage, apiCodeField, hfirst]; rfl
  | str s => simp [nonOkResult, apiMessage, apiCodeField, hfirst]; rfl
  | arr xs => simp [nonOkResult, apiMessage, apiCodeField, hfirst]; rfl
  | obj fs => simp [nonOkResult, apiMessage, apiCodeField, hfirst]; rfl

/-- Witness for C2, instantiated at a non-null body without an `errors`
array. -/
theorem api_error_extraction_witness :
    nonOkResult (Json.obj .nil)
      = .api "Backlog API Error: Unknown error (Code: undefined)" none :=
  api_error_extraction.2.2.2 (.obj .nil) (by decide) rfl

/-- The pretty-printed JSON text of `sampleBody`, exactly as
`JSON.stringify(sampleBody, null, 2)` renders it. -/
def sampleBodyText : String :=
  "[\n  \x7b\n    \"project\": \x7b\n      \"id\": 1,\n      \"projectKey\": \"TEST\",\n      \"name\": \"Test Project\"\n    \x7d,\n    \"updated\": \"2024-01-01\"\n  \x7d\n]"

set_option maxRecDepth 100000 in
/-- C3: with a stubbed upstream returning HTTP 200 with the one-element
array `sampleBody`, calling `list_recent_projects` with no arguments
returns a text envelope titled "Recently Viewed Projects" whose body, when
parsed as JSON, equals that same one-element array. -/
theorem success_envelope_round_trip :
    (executeTools envC (fun _ => .resp true sampleBody) "list_recent_projects" noArgs).1
      = .ok ⟨[⟨"text", "# Recently Viewed Projects\n\n" ++ sampleBodyText⟩]⟩
  ∧ jsonParse sampleBodyText = some sampleBody := by
  exact ⟨rfl, by decide⟩

/-- C4: calling `list_recent_projects` with either Backlog credential
missing (or empty, which the falsiness check treats the same way) fails
with the configuration error, no request is issued (the trace is empty),
and the result does not depend on the HTTP layer. -/
theorem missing_credentials_rejected (env : Env) (fetch : Fetch) (args : ToolArgs)
    (h : envFalsy env.backlogApiKey = true ∨ envFalsy env.backlogSpaceUrl = true) :
    executeTools env fetch "list_recent_projects" args
      = (.error (.config credsErrMsg), []) := by
  have hb : (envFalsy env.backlogApiKey || envFalsy env.backlogSpaceUrl) = true := by
    rcases h with h | h <;> simp [h]
  simp [executeTools, listRecentProjects, runRecent, hb]

/-- Witness for C4, instantiated at the empty environment. -/
theorem missing_credentials_rejected_witness :
    executeTools ⟨none, none, none⟩ (fun _ => .fail "unreachable")
        "list_recent_projects" noArgs
      = (.error (.config credsErrMsg), []) :=
  missing_credentials_rejected ⟨none, none, none⟩ (fun _ => .fail "unreachable")
    noArgs (Or.inl rfl)

/-- C6: every request the client builds is a GET with no body, carries only
the `Content-Type` header (so no key material in headers or body), has the
API key as the first query parameter under the name `apiKey`, and attaches
exactly the defined ones of `order`/`offset`/`count` as query parameters —
absent fields are omitted. -/
theorem client_request_invariants (cfg : AuthConfig) (fetch : Fetch)
    (params : RecentParams) (req : Request)
    (h : req ∈ (getRecentlyViewedProjects cfg fetch params).2) :
    req.method = "GET"
  ∧ req.body = none
  ∧ req.headers = [("Content-Type", "application/json")]
  ∧ req.query = ("apiKey", QVal.s cfg.apiKey) :: recentQueryParams params
  ∧ ((∃ v, ("order", v) ∈ req.query) ↔ params.order ≠ none)
  ∧ ((∃ v, ("offset", v) ∈ req.query) ↔ params.offset ≠ none)
  ∧ ((∃ v, ("count", v) ∈ req.query) ↔ params.count ≠ none)
  ∧ (∀ (path : String) (qp : List (String × QVal)) (r2 : Request),
      r2 ∈ (request cfg fetch path qp).2 →
      r2.method = "GET" ∧ r2.body = none
        ∧ r2.headers = [("Content-Type", "application/json")]
        ∧ r2.query = ("apiKey", QVal.s cfg.apiKey) :: qp) := by
  have hr : req
      = mkRequest cfg "/users/myself/recentlyViewedProjects" (recentQueryParams params) := by
    simpa [getRecentlyViewedProjects, request] using h
  subst hr
  obtain ⟨o, off, c⟩ := params
  refine ⟨rfl, rfl, rfl, rfl, ?_, ?_, ?_, ?_⟩
  · cases o <;> cases off <;> cases c <;>
      simp [mkRequest, recentQueryParams, SortOrder.str]
  · cases o <;> cases off <;> cases c <;>
      simp [mkRequest, recentQueryParams, SortOrder.str]
  · cases o <;> cases off <;> cases c <;>
      simp [mkRequest, recentQueryParams, SortOrder.str]
  · intro path qp r2 h2
    have hr2 : r2 = mkRequest cfg path qp := by
      simpa [request] using h2
    subst hr2
    exact ⟨rfl, rfl, rfl, rfl⟩

/-- Witness for C6, instantiated at a request with `order` and `count`
defined and `offset` absent. -/
theorem client_request_invariants_witness :
    (mkRequest ⟨"k", "https://sp"⟩ "/users/myself/recentlyViewedProjects"
        (recentQueryParams ⟨some .asc, none, some 5⟩)).method = "GET" :=
  (client_request_invariants ⟨"k", "https://sp"⟩ (fun _ => .fail "e")
    ⟨some .asc, none, some 5⟩ _ (by decide)).1

/-- C7: reading `simple://greeting` with `SAMPLE_ENV = "hello"` succeeds
with a text containing exactly `hello`; with `SAMPLE_ENV` unset it fails
with the configuration error and no text is returned. -/
theorem greeting_resource_env_behavior :
    readResource ⟨some "key", some "https://example.backlog.com", some "hello"⟩
        "simple://greeting"
      = .ok ⟨[⟨"simple://greeting", "text/plain",
          "こんにちは！シンプルなMCPサーバーへようこそ。\n環境変数 SAMPLE_ENV: hello"⟩]⟩
  ∧ strContains
      "こんにちは！シンプルなMCPサーバーへようこそ。\n環境変数 SAMPLE_ENV: hello"
      "hello" = true
  ∧ readResource envC "simple://greeting"
      = .error (.config "環境変数 SAMPLE_ENV が設定されていません") :=
  ⟨rfl, by decide, rfl⟩

/-- C8: reading any URI other than `simple://greeting` fails with the
not-found error whose message names that URI. -/
theorem unknown_resource_not_found (env : Env) (uri : String)
    (h : uri ≠ "simple://greeting") :
    readResource env uri = .error (.notFound ("不明なリソース: " ++ uri)) := by
  simp [readResource, h]

/-- Witness for C8, instantiated at `simple://nope`. -/
theorem unknown_resource_not_found_witness :
    readResource envC "simple://nope"
      = .error (.notFound ("不明なリソース: " ++ "simple://nope")) :=
  unknown_resource_not_found envC "simple://nope" (by decide)

/-- C9: calling any tool name other than `list_recent_projects` fails with
the unknown-tool error, surfaced to the caller, and no upstream request is
made (the trace is empty). -/
theorem unknown_tool_rejected (env : Env) (fetch : Fetch) (toolName : String)
    (args : ToolArgs) (h : toolName ≠ "list_recent_projects") :
    executeTools env fetch toolName args
      = (.error (.unknownTool "unknown tool"), []) := by
  simp [executeTools, h]

/-- Witness for C9, instantiated at the tool name `foo`. -/
theorem unknown_tool_rejected_witness :
    executeTools envC (fun _ => .fail "unreachable") "foo" noArgs
      = (.error (.unknownTool "unknown tool"), []) :=
  unknown_tool_rejected envC (fun _ => .fail "unreachable") "foo" noArgs (by decide)

end Backlog
